import Mathlib

/-!
Shallow embedding of the utility functions in `src/utils.py` of the
repository, together with theorems settling the spec claims about them.

Modelling conventions:
* File contents are `List Nat` (byte sequences).
* The filesystem seen by `os.walk` is a tree `FSTree` of named files with
  sizes and named subdirectories; `os.walk(directory)` with top-down
  pruning is `walkFiles`, which yields the files of a directory (in listing
  order) before recursing into its subdirectories, skipping pruned ones.
* The running float of `format_file_size`, an integer divided by 1024 up
  to five times, is carried exactly as the fraction n / 1024 ^ k; every
  such division of an integer below 2^53 is exact in IEEE doubles, so the
  model agrees with the Python code on all inputs the claims use.
* Wall-clock readings (`datetime.now()`) are passed in as opaque string
  parameters; the `generated_at` field of the Python summary dict, which
  is such a reading, is omitted from the summary record.
-/

/-- Index of the last occurrence of `c` in the list, if any. -/
def lastIdxOf (c : Char) : List Char → Option Nat
  | [] => none
  | x :: xs =>
    match lastIdxOf c xs with
    | some i => some (i + 1)
    | none => if x = c then some 0 else none

/-- The extension component `os.path.splitext(name)[1]` (POSIX rules):
the suffix from the last dot, provided that dot lies after the last path
separator and some non-dot character precedes it within the basename. -/
def splitextExt (name : String) : String :=
  let cs := name.toList
  match lastIdxOf '.' cs with
  | none => ""
  | some di =>
    let start :=
      match lastIdxOf '/' cs with
      | none => 0
      | some si => si + 1
    if start ≤ di ∧ ((cs.drop start).take (di - start)).any (fun ch => ch ≠ '.') then
      String.mk (cs.drop di)
    else ""

/-- Function `os.path.basename` (POSIX): everything after the last separator. -/
def basename (p : String) : String :=
  match lastIdxOf '/' p.toList with
  | none => p
  | some i => String.mk (p.toList.drop (i + 1))

/-- Python `str.startswith`, over the character lists. -/
def strStartsWith (s pre : String) : Bool := pre.toList.isPrefixOf s.toList

/-- Python `str.endswith`, over the character lists. -/
def strEndsWith (s suf : String) : Bool := suf.toList.isSuffixOf s.toList

/-- Function `os.path.join(d, name)` (POSIX) for the shapes used in `utils.py`:
an absolute second component replaces the first, otherwise a separator is
inserted unless the first component is empty or already ends in one. -/
def joinPath (d name : String) : String :=
  if strStartsWith name "/" then name
  else if d = "" ∨ strEndsWith d "/" then d ++ name
  else d ++ "/" ++ name

/-- The extension bucket key used by `create_summary_report`:
the lowercased `splitext` extension, or the sentinel "no_extension"
when that extension is empty. -/
def extKey (name : String) : String :=
  let e := (splitextExt name).toLower
  if e = "" then "no_extension" else e

mutual
/-- A directory tree as observed by `os.walk`: the files of the directory
(name and byte size, in listing order) and its named subdirectories. -/
inductive FSTree : Type where
  | mk (files : List (String × Nat)) (subdirs : DirList)
/-- The subdirectory listing of a directory. -/
inductive DirList : Type where
  | nil
  | cons (name : String) (tree : FSTree) (rest : DirList)
end

mutual
/-- The `(name, size)` pairs processed by the `os.walk` loop of
`create_summary_report`, in processing order: files of the current
directory first (hidden files skipped), then the subdirectories in order,
with hidden directories pruned from the walk. -/
def walkFiles : FSTree → List (String × Nat)
  | .mk files subdirs =>
    files.filter (fun f => !(strStartsWith f.1 ".")) ++ walkDirs subdirs
/-- Walk of a subdirectory listing, skipping pruned (hidden) directories. -/
def walkDirs : DirList → List (String × Nat)
  | .nil => []
  | .cons n t rest =>
    (if strStartsWith n "." then [] else walkFiles t) ++ walkDirs rest
end

mutual
/-- Removal of every hidden file and hidden directory from a tree. -/
def pruneHidden : FSTree → FSTree
  | .mk files subdirs =>
    FSTree.mk (files.filter (fun f => !(strStartsWith f.1 "."))) (pruneDirs subdirs)
/-- Removal of hidden entries from a subdirectory listing. -/
def pruneDirs : DirList → DirList
  | .nil => .nil
  | .cons n t rest =>
    if strStartsWith n "." then pruneDirs rest
    else .cons n (pruneHidden t) (pruneDirs rest)
end

/-- The dict update `stats["file_types"][ext] = get(ext, 0) + 1`, on a
Python dict modelled as an insertion-ordered association list: bump the
existing key or append it. -/
def bumpExt (m : List (String × Nat)) (ext : String) : List (String × Nat) :=
  match m with
  | [] => [(ext, 1)]
  | (k, v) :: rest =>
    if k = ext then (k, v + 1) :: rest else (k, v) :: bumpExt rest ext

/-- The `largest_file` sub-record of the summary. -/
structure LargestFile where
  name : String
  size : Nat
deriving Repr, DecidableEq

/-- The mutable `stats` record built during the walk. -/
structure SummaryStats where
  total_files : Nat
  total_size : Nat
  file_types : List (String × Nat)
  largest_file : LargestFile
deriving Repr, DecidableEq

/-- The loop body of `create_summary_report` for one visible file. -/
def processFile (s : SummaryStats) (f : String × Nat) : SummaryStats :=
  { total_files := s.total_files + 1
    total_size := s.total_size + f.2
    file_types := bumpExt s.file_types (extKey f.1)
    largest_file :=
      if f.2 > s.largest_file.size then ⟨f.1, f.2⟩ else s.largest_file }

/-- The initial `stats` value of `create_summary_report`. -/
def initStats : SummaryStats :=
  { total_files := 0, total_size := 0, file_types := [], largest_file := ⟨"", 0⟩ }

/-- Round-half-even of the fraction a / d (d positive); format strings
with ".1f" round the (here exact) binary value to the nearest decimal,
ties to even. -/
def roundHalfEvenDiv (a d : Nat) : Nat :=
  let q := a / d
  let r := a % d
  if 2 * r < d then q
  else if d < 2 * r then q + 1
  else if q % 2 = 0 then q else q + 1

/-- Rendering of the value n / 1024 ^ k with one decimal digit, as Python
format-string rendering with ".1f" does for the sizes at hand. -/
def oneDecimalStr (n k : Nat) : String :=
  let m := roundHalfEvenDiv (10 * n) (1024 ^ k)
  toString (m / 10) ++ "." ++ toString (m % 10)

/-- The unit list of `format_file_size`. -/
def sizeUnits : List String := ["B", "KB", "MB", "GB", "TB"]

/-- The loop of `format_file_size`: the running float value is exactly
n / 1024 ^ k, so the comparison with 1024 is n < 1024 ^ (k + 1) and the
division by 1024 increments k. Emit at the first unit under which the
value is below 1024; after the last unit the value (divided five times)
is rendered in PB. -/
def formatLoop (n k : Nat) : List String → String
  | [] => oneDecimalStr n k ++ " PB"
  | u :: rest =>
    if n < 1024 ^ (k + 1) then oneDecimalStr n k ++ " " ++ u
    else formatLoop n (k + 1) rest

/-- Function `format_file_size` from `src/utils.py`. -/
def format_file_size (size_bytes : Nat) : String :=
  formatLoop size_bytes 0 sizeUnits

/-- The record returned by `create_summary_report` (the `generated_at`
wall-clock field is omitted, see the module docstring). -/
structure SummaryReport where
  total_files : Nat
  total_size : Nat
  file_types : List (String × Nat)
  largest_file : LargestFile
  total_size_formatted : String
deriving Repr, DecidableEq

/-- Function `create_summary_report` from `src/utils.py`, over the walk
model. -/
def create_summary_report (t : FSTree) : SummaryReport :=
  let s := (walkFiles t).foldl processFile initStats
  { total_files := s.total_files
    total_size := s.total_size
    file_types := s.file_types
    largest_file := s.largest_file
    total_size_formatted := format_file_size s.total_size }

/-- The `iter(lambda: f.read(4096), b"")` loop: the bytes of the file cut
into successive chunks of at most 4096. -/
def readChunks (bs : List Nat) : List (List Nat) :=
  if bs = [] then [] else bs.take 4096 :: readChunks (bs.drop 4096)
termination_by bs.length
decreasing_by
  simp only [List.length_drop]
  have : bs.length ≠ 0 := fun h => by simp [List.length_eq_zero.mp h] at *
  omega

/-- A `hashlib` hash object: its current state, its `update` method and
its `hexdigest` method. -/
structure HashObj (σ : Type) where
  state : σ
  update : σ → List Nat → σ
  hexdigest : σ → String

/-- Function `calculate_file_hash` from `src/utils.py`. `hashlib_new`
models `hashlib.new`: `none` is its `ValueError` on an unrecognised
algorithm name. `fs` models the readable filesystem: `none` is the
`OSError` of `open` (missing path or any other OS failure). Both
exceptions are caught by the `except (OSError, ValueError)` clause of the
function, which returns the sentinel `none`; otherwise the object is
updated with each 4096-byte chunk and its hex digest is returned. -/
def calculate_file_hash {σ : Type} (hashlib_new : String → Option (HashObj σ))
    (fs : String → Option (List Nat)) (filepath : String) (algorithm : String) :
    Option String :=
  match hashlib_new algorithm with
  | none => none
  | some h =>
    match fs filepath with
    | none => none
    | some contents =>
      some (h.hexdigest ((readChunks contents).foldl h.update h.state))

/-- The first whitespace-delimited token of a string, as
`s.split()[0]` extracts the bare version number from `sys.version`
(which always has such a token). -/
def firstToken (s : String) : String :=
  String.mk ((s.toList.dropWhile Char.isWhitespace).takeWhile
    (fun c => !(c.isWhitespace)))

/-- Function `get_system_info` from `src/utils.py`. The host/runtime
reads (`sys.platform`, `sys.version`, `os.getcwd()`, the USER environment
variable, `datetime.now().isoformat()`) enter as parameters; the result
is the dict literal the function builds, as an insertion-ordered list. -/
def get_system_info (sys_platform sys_version cwd : String)
    (user_env : Option String) (now_iso : String) : List (String × String) :=
  [("platform", sys_platform),
   ("python_version", firstToken sys_version),
   ("current_dir", cwd),
   ("user", user_env.getD "unknown"),
   ("timestamp", now_iso)]

/-- The OS facts `backup_file` interacts with: whether `os.makedirs`
succeeds, the readable filesystem (for the binary read of the source
file), and whether opening and writing the destination succeeds. -/
structure BackupEnv where
  makedirs_ok : Bool
  fs : String → Option (List Nat)
  write_ok : Bool

/-- Function `backup_file` from `src/utils.py`. Returns the boolean
result together with the backup file it wrote (path and bytes), `none`
when no write happened; every `OSError` along the way is caught and turns
into `(false, none)`. -/
def backup_file (env : BackupEnv) (filepath backup_dir timestamp : String) :
    Bool × Option (String × List Nat) :=
  if env.makedirs_ok then
    let filename := basename filepath
    let backup_path := joinPath backup_dir (filename ++ "_" ++ timestamp ++ ".bak")
    match env.fs filepath with
    | none => (false, none)
    | some contents =>
      if env.write_ok then (true, some (backup_path, contents)) else (false, none)
  else (false, none)

/-- Sum of the per-extension counts of a `file_types` association list. -/
def sumCounts (m : List (String × Nat)) : Nat := (m.map Prod.snd).sum

/-- A demonstration hash object over byte-accumulating state with a fixed
digest rendering. -/
def demoHashObj : HashObj (List Nat) :=
  { state := [], update := fun s c => s ++ c, hexdigest := fun _ => "d41d8cd9" }

/-- A demonstration model of `hashlib.new` recognising only md5. -/
def demoHashlib (a : String) : Option (HashObj (List Nat)) :=
  if a = "md5" then some demoHashObj else none

/-- A demonstration filesystem holding one empty file named data.txt. -/
def demoFS (p : String) : Option (List Nat) :=
  if p = "data.txt" then some [] else none

/-- A demonstration filesystem holding the same contents under the name
copy.txt. -/
def demoFSCopy (p : String) : Option (List Nat) :=
  if p = "copy.txt" then some [] else none

/-- A filesystem on which every open fails with `OSError`. -/
def emptyFS (_ : String) : Option (List Nat) := none

/-- Claim C1: for every path and every algorithm name,
`calculate_file_hash` never raises past its boundary: on any OS error
(including a non-existent path, `fs filepath = none`) or an unrecognised
algorithm name (`hashlib_new algorithm = none`) it returns the sentinel
`none` instead of a hex-digest string. -/
theorem calculate_file_hash_error_returns_none {σ : Type}
    (hashlib_new : String → Option (HashObj σ)) (fs : String → Option (List Nat))
    (filepath algorithm : String)
    (herr : hashlib_new algorithm = none ∨ fs filepath = none) :
    calculate_file_hash hashlib_new fs filepath algorithm = none := by
  unfold calculate_file_hash
  rcases herr with h | h
  · rw [h]
  · cases hh : hashlib_new algorithm
    · rfl
    · rw [h]

/-- Witness for claim C1 at a concrete input: hashing a missing path with
a recognised algorithm returns `none`. -/
theorem calculate_file_hash_error_returns_none_witness :
    calculate_file_hash demoHashlib emptyFS "missing.txt" "md5" = none :=
  calculate_file_hash_error_returns_none demoHashlib emptyFS "missing.txt" "md5"
    (Or.inr rfl)

/-- Claim C5: the result of `calculate_file_hash` is a deterministic
function of the file contents and the algorithm name: two runs over the
same bytes (even under different paths on different filesystems) return
the same result. -/
theorem calculate_file_hash_deterministic {σ : Type}
    (hashlib_new : String → Option (HashObj σ))
    (fs1 fs2 : String → Option (List Nat)) (p1 p2 algorithm : String)
    (hsame : fs1 p1 = fs2 p2) :
    calculate_file_hash hashlib_new fs1 p1 algorithm =
      calculate_file_hash hashlib_new fs2 p2 algorithm := by
  unfold calculate_file_hash
  rw [hsame]

/-- Witness for claim C5 at a concrete input: the same empty contents
under two different paths hash to the same result. -/
theorem calculate_file_hash_deterministic_witness :
    calculate_file_hash demoHashlib demoFS "data.txt" "md5" =
      calculate_file_hash demoHashlib demoFSCopy "copy.txt" "md5" :=
  calculate_file_hash_deterministic demoHashlib demoFS demoFSCopy
    "data.txt" "copy.txt" "md5" (by decide)

/-- Claim C7: `backup_file` always returns a boolean; on any OS error
(failed directory creation, unreadable source, unwritable destination) it
returns `false` rather than propagating the exception. -/
theorem backup_file_error_returns_false (env : BackupEnv)
    (filepath backup_dir timestamp : String)
    (herr : env.makedirs_ok = false ∨ env.fs filepath = none ∨
      env.write_ok = false) :
    (backup_file env filepath backup_dir timestamp).1 = false := by
  unfold backup_file
  rcases herr with h | h | h
  · simp [h]
  · cases hm : env.makedirs_ok <;> simp [h]
  · cases hm : env.makedirs_ok
    · simp
    · cases hf : env.fs filepath <;> simp [h]

/-- Witness for claim C7 at a concrete input: backing up a missing source
file returns `false`. -/
theorem backup_file_error_returns_false_witness :
    (backup_file ⟨true, emptyFS, true⟩ "missing.txt" "backups"
      "20260101_120000").1 = false :=
  backup_file_error_returns_false ⟨true, emptyFS, true⟩ "missing.txt" "backups"
    "20260101_120000" (Or.inr (Or.inl rfl))

/-- Claim C8: for a readable source file of size 0 and a creatable,
writable backup directory, `backup_file` returns `true` and writes inside
`backup_dir` a backup of size 0 named after the original base filename
followed by an underscore, the timestamp, and the suffix `.bak`. -/
theorem backup_file_empty_file (env : BackupEnv)
    (filepath backup_dir timestamp : String)
    (hmk : env.makedirs_ok = true) (hsrc : env.fs filepath = some [])
    (hw : env.write_ok = true) :
    backup_file env filepath backup_dir timestamp =
      (true, some (joinPath backup_dir
        (basename filepath ++ "_" ++ timestamp ++ ".bak"), [])) := by
  unfold backup_file
  rw [hmk, hsrc]
  simp [hw]

/-- Witness for claim C8 at a concrete input: the empty file data.txt is
backed up to backups/data.txt_20260101_120000.bak with empty contents. -/
theorem backup_file_empty_file_witness :
    backup_file ⟨true, demoFS, true⟩ "data.txt" "backups" "20260101_120000" =
      (true, some ("backups/data.txt_20260101_120000.bak", [])) := by
  rw [backup_file_empty_file ⟨true, demoFS, true⟩ "data.txt" "backups"
    "20260101_120000" rfl (by decide) rfl]
  decide

/-- Claim C4: `format_file_size` scales by 1024 and renders one decimal:
10 bytes gives "10.0 B", 2048 bytes gives "2.0 KB", and 5000000 bytes
gives "4.8 MB". -/
theorem format_file_size_units :
    format_file_size 10 = "10.0 B" ∧ format_file_size 2048 = "2.0 KB" ∧
      format_file_size 5000000 = "4.8 MB" := by
  refine ⟨?_, ?_, ?_⟩ <;> decide

/-- Counterexample for claim C3 at a concrete input: the mapping returned
by `get_system_info` has no entry for the key "release" (nor would it for
architecture, hostname or processor), contradicting the claimed key set. -/
theorem get_system_info_missing_release :
    ((get_system_info "linux" "3.11.9 (main, Oct 1 2025)" "/root" (some "root")
      "2026-10-12T00:00:00").lookup "release") = none := by
  decide

/-- Claim C3 as amended: `get_system_info` returns a string-to-string
mapping whose keys are exactly platform, python_version (the runtime
version), current_dir (the current directory), user, and timestamp. -/
theorem get_system_info_keys (sys_platform sys_version cwd : String)
    (user_env : Option String) (now_iso : String) :
    (get_system_info sys_platform sys_version cwd user_env now_iso).map
      Prod.fst =
      ["platform", "python_version", "current_dir", "user", "timestamp"] :=
  rfl

/-- Claim C2: encountering files A of 100 bytes, B of 300 bytes and C of
300 bytes in that order, `create_summary_report` names B as the largest
file: the record is replaced only on a strictly greater size, so the
first file reaching the maximum wins ties. -/
theorem largest_file_first_max_wins (a b c : String)
    (hb : strStartsWith b "." = false) :
    (create_summary_report
      (FSTree.mk [(a, 100), (b, 300), (c, 300)] DirList.nil)).largest_file =
      ⟨b, 300⟩ := by
  by_cases ha : strStartsWith a "." <;> by_cases hc : strStartsWith c "." <;>
    simp [create_summary_report, walkFiles, walkDirs, processFile, initStats,
      ha, hb, hc]

/-- Witness for claim C2 at concrete file names. -/
theorem largest_file_first_max_wins_witness :
    (create_summary_report
      (FSTree.mk [("A.txt", 100), ("B.txt", 300), ("C.txt", 300)]
        DirList.nil)).largest_file = ⟨"B.txt", 300⟩ :=
  largest_file_first_max_wins "A.txt" "B.txt" "C.txt" (by decide)

/-- Claim C9: for a directory tree in which the walk meets no visible
file, `create_summary_report` reports zero files and zero total size. -/
theorem create_summary_report_empty (t : FSTree) (h : walkFiles t = []) :
    (create_summary_report t).total_files = 0 ∧
      (create_summary_report t).total_size = 0 := by
  refine ⟨?_, ?_⟩ <;> simp [create_summary_report, h, initStats]

/-- Witness for claim C9 at the concrete empty directory. -/
theorem create_summary_report_empty_witness :
    (create_summary_report (FSTree.mk [] DirList.nil)).total_files = 0 ∧
      (create_summary_report (FSTree.mk [] DirList.nil)).total_size = 0 :=
  create_summary_report_empty (FSTree.mk [] DirList.nil) rfl

/-- Bumping a bucket raises the sum of the per-extension counts by one. -/
theorem sumCounts_bumpExt (m : List (String × Nat)) (e : String) :
    sumCounts (bumpExt m e) = sumCounts m + 1 := by
  induction m with
  | nil => simp [bumpExt, sumCounts]
  | cons hd tl ih =>
    obtain ⟨k, v⟩ := hd
    by_cases h : k = e <;> simp [bumpExt, h, sumCounts] at * <;> omega

/-- The walk loop preserves the count-vs-buckets invariant. -/
theorem foldl_total_files_eq_sumCounts :
    ∀ (l : List (String × Nat)) (s : SummaryStats),
      s.total_files = sumCounts s.file_types →
      (l.foldl processFile s).total_files =
        sumCounts (l.foldl processFile s).file_types := by
  intro l
  induction l with
  | nil => intro s hs; simpa using hs
  | cons f rest ih =>
    intro s hs
    simp only [List.foldl_cons]
    exact ih (processFile s f) (by simp [processFile, sumCounts_bumpExt, hs])

/-- Claim C10: for every directory tree, the summary satisfies the
invariant that `total_files` equals the sum of the per-extension counts
in `file_types`: each counted file increments exactly one bucket. -/
theorem total_files_eq_sum_file_types (t : FSTree) :
    (create_summary_report t).total_files =
      sumCounts (create_summary_report t).file_types := by
  show ((walkFiles t).foldl processFile initStats).total_files =
    sumCounts ((walkFiles t).foldl processFile initStats).file_types
  exact foldl_total_files_eq_sumCounts (walkFiles t) initStats
    (by simp [initStats, sumCounts])

mutual
/-- Pruning hidden entries does not change the walked file list. -/
theorem walkFiles_pruneHidden :
    ∀ t : FSTree, walkFiles (pruneHidden t) = walkFiles t
  | .mk files subdirs => by
    rw [pruneHidden, walkFiles, walkFiles, walkDirs_pruneDirs subdirs,
      List.filter_filter]
    simp
/-- Pruning hidden entries does not change the walked file list of a
subdirectory listing. -/
theorem walkDirs_pruneDirs :
    ∀ ds : DirList, walkDirs (pruneDirs ds) = walkDirs ds
  | .nil => rfl
  | .cons n t rest => by
    by_cases h : strStartsWith n "."
    · rw [pruneDirs]
      simp [h, walkDirs, walkDirs_pruneDirs rest]
    · rw [pruneDirs]
      simp [h, walkDirs, walkDirs_pruneDirs rest, walkFiles_pruneHidden t]
end

/-- Claim C6: `create_summary_report` excludes every dot-directory (with
everything beneath it) and every dot-file: the summary of a tree equals
the summary of the tree with all hidden entries removed, so such entries
contribute nothing to total_files, total_size, file_types or
largest_file. -/
theorem create_summary_report_ignores_hidden (t : FSTree) :
    create_summary_report (pruneHidden t) = create_summary_report t := by
  unfold create_summary_report
  rw [walkFiles_pruneHidden]
